import Mathlib

/-!
Verification development for the customer-segmentation pipeline
(`backend/spark_job.py` and the job runner in `backend/app.py`).

The pipeline operates on Spark DataFrames; here a DataFrame is embedded as a
`Table`: a list of column names plus rows of typed cells.  A cell is either
null, a (double) number modelled as a rational, or a text value (Spark string
columns).  All stage functions are translated from `spark_job.py`; the status
writes (`log_progress` / `update_job_status`) are modelled as a list of
`StatusRecord`s accumulated by the orchestration function, and the background
runner of `app.py` prepends the `queued`/`initializing` writes and appends its
unconditional final `completed` write.  String normalization and numeral
parsing are implemented over character lists so that all definitions reduce
inside the kernel.
-/

/-- Typed scalar held by one table cell: SQL null, a numeric (double) value
modelled as a rational, or a string value. -/
inductive Cell
  | null
  | num (q : ℚ)
  | text (s : String)
  deriving DecidableEq

/-- True for string-valued cells; a column containing such a cell is a
string-typed column (Spark columns are homogeneous, so any text cell marks
the whole column as string-typed for `fillna` purposes). -/
def Cell.isText : Cell → Bool
  | Cell.text _ => true
  | _ => false

/-- ASCII whitespace test used by the column-name normalization. -/
def isWsChar (c : Char) : Bool :=
  c = ' ' ∨ c = '\t' ∨ c = '\n' ∨ c = '\r'

/-- Strip leading and trailing whitespace from a character list
(the `.strip()` in `get_column_names` / `normalize_dataframe`). -/
def trimChars (l : List Char) : List Char :=
  ((l.dropWhile isWsChar).reverse.dropWhile isWsChar).reverse

/-- ASCII lowercasing of one character (the `.lower()` of column-name
normalization). -/
def lowerChar (c : Char) : Char :=
  if 65 ≤ c.toNat ∧ c.toNat ≤ 90 then Char.ofNat (c.toNat + 32) else c

/-- Column-name normalization `col.strip().lower()`. -/
def normName (s : String) : String :=
  String.mk ((trimChars s.data).map lowerChar)

/-- Digit-string to natural number accumulator; `none` on any non-digit. -/
def digitsVal : List Char → ℕ → Option ℕ
  | [], acc => some acc
  | c :: cs, acc => if c.isDigit then digitsVal cs (acc * 10 + (c.toNat - 48)) else none

/-- Parse a nonempty run of decimal digits. -/
def digitsToNat? (cs : List Char) : Option ℕ :=
  match cs with
  | [] => none
  | _ => digitsVal cs 0

/-- Split a character list at the first decimal point. -/
def splitAtDot (l : List Char) : List Char × Option (List Char) :=
  match l with
  | [] => ([], none)
  | c :: cs =>
    if c = '.' then ([], some cs)
    else
      let r := splitAtDot cs
      (c :: r.1, r.2)

/-- Parse an unsigned decimal numeral with an optional fractional part. -/
def parseUnsigned? (l : List Char) : Option ℚ :=
  match splitAtDot l with
  | (ip, none) => (digitsToNat? ip).map (fun n => (n : ℚ))
  | (ip, some fp) =>
    match digitsToNat? ip with
    | none => none
    | some n =>
      match fp with
      | [] => some ((n : ℚ))
      | fcs =>
        match digitsToNat? fcs with
        | none => none
        | some f => some ((n : ℚ) + (f : ℚ) / ((10 : ℚ) ^ fcs.length))

/-- Decimal parser modelling Spark's string-to-double cast: optional sign,
integer part, optional fraction, surrounding whitespace ignored.
(Scientific notation is not modelled; no property below depends on which
numerals parse, only on the existence of parseable and unparseable
strings.) -/
def parseQ (s : String) : Option ℚ :=
  match trimChars s.data with
  | '-' :: rest => (parseUnsigned? rest).map (fun q => -q)
  | '+' :: rest => parseUnsigned? rest
  | l => parseUnsigned? l

/-- Value of a cell as a double, following Spark's implicit/explicit cast:
numbers are kept, strings are parsed (unparseable gives `none`), null gives
`none`. -/
def castQ? : Cell → Option ℚ
  | Cell.null => none
  | Cell.num q => some q
  | Cell.text s => parseQ s

/-- Spark's `cast('double')` on one cell: numeric values are kept, strings
parse to a number or become null, null stays null. -/
def castCell (c : Cell) : Cell :=
  match castQ? c with
  | some q => Cell.num q
  | none => Cell.null

/-- In-memory table standing for a Spark DataFrame: column names plus rows
of cells (row `r` holds the value of column `i` at position `i`). -/
structure Table where
  colNames : List String
  rows : List (List Cell)
  deriving DecidableEq

/-- Index of the first column with the given (exact) name. -/
def idxOf? (name : String) : List String → Option ℕ
  | [] => none
  | c :: cs => if c = name then some 0 else (idxOf? name cs).map (fun i => i + 1)

/-- Update the element at position `i` (no-op when out of range). -/
def updAt (i : ℕ) (f : α → α) : List α → List α
  | [] => []
  | x :: xs =>
    match i with
    | 0 => f x :: xs
    | n + 1 => x :: updAt n f xs

/-- Cells of column `i`, top to bottom (missing positions read as null). -/
def colCells (t : Table) (i : ℕ) : List Cell :=
  t.rows.map (fun r => r.getD i Cell.null)

/-- Column names of `df`, each stripped and lowercased
(`get_column_names` in `spark_job.py`). -/
def get_column_names (t : Table) : List String :=
  t.colNames.map normName

/-- Rename every column to its stripped, lowercased form
(`normalize_dataframe` in `spark_job.py`). -/
def normalize_dataframe (t : Table) : Table :=
  { t with colNames := t.colNames.map normName }

/-- The four required numeric columns (`required` in
`validate_required_columns`). -/
def requiredColumns : List String := ["age", "spend", "recency", "frequency"]

/-- Single-quote character, used to render the Python `repr` of strings. -/
def quoteStr : String := String.singleton (Char.ofNat 39)

/-- Python `str` of a list of strings, as interpolated into the
`ValueError` message (e.g. a list holding `recency` renders with quotes
and brackets). -/
def pyStrList (l : List String) : String :=
  "[" ++ String.intercalate (", ") (l.map (fun s => quoteStr ++ s ++ quoteStr)) ++ "]"

/-- Message of the `ValueError` raised by `validate_required_columns`. -/
def missingColsMsg (missing : List String) : String :=
  "Missing required columns: " ++ pyStrList missing

/-- Required column names absent from the normalized column-name list. -/
def missingColumns (t : Table) : List String :=
  requiredColumns.filter (fun c => ¬ (get_column_names t).contains c)

/-- Check the four required columns exist
(`validate_required_columns` in `spark_job.py`); raises a `ValueError`
listing the missing names otherwise. -/
def validate_required_columns (t : Table) : Except String Unit :=
  if missingColumns t = [] then Except.ok () else Except.error (missingColsMsg (missingColumns t))

/-- Median with linear interpolation at the midpoint, as Spark's `median`
aggregate (percentile 0.5) computes it over the non-null values; `none` on
an empty list. -/
def medianQ (l : List ℚ) : Option ℚ :=
  match l with
  | [] => none
  | _ =>
    let s := List.insertionSort (fun a b : ℚ => a ≤ b) l
    let n := l.length
    if n % 2 = 1 then some (s.getD (n / 2) 0)
    else some ((s.getD (n / 2 - 1) 0 + s.getD (n / 2) 0) / 2)

/-- One round of the fill loop of `preprocess_data` for a single column:
compute the column's median over non-null values (0 when the whole column
is null), then `fillna` — which replaces nulls only in numeric-typed
columns; on a string-typed column (one holding text cells) the numeric
fill value is skipped by Spark. -/
def fillCol (t : Table) (name : String) : Table :=
  match idxOf? name t.colNames with
  | none => t
  | some i =>
    let cells := colCells t i
    let med := (medianQ (cells.filterMap castQ?)).getD 0
    if cells.all (fun c => ¬ c.isText) then
      { t with rows := t.rows.map (updAt i (fun c =>
          match c with
          | Cell.null => Cell.num med
          | other => other)) }
    else t

/-- The median-fill loop of `preprocess_data`, over the four numeric
columns in source order. -/
def fillRequired (t : Table) : Table :=
  fillCol (fillCol (fillCol (fillCol t ("age")) ("spend")) ("recency")) ("frequency")

/-- Positions of the four required columns. -/
def numericIdxs (t : Table) : List ℕ :=
  requiredColumns.filterMap (fun name => idxOf? name t.colNames)

/-- True when the row is null in at least one of the four required
columns. -/
def rowHasNullAt (idxs : List ℕ) (r : List Cell) : Bool :=
  idxs.any (fun i => r.getD i Cell.null = Cell.null)

/-- The `dropna(subset=numeric_cols)` step: drop every row that is null in
any of the four required columns. -/
def dropnaRequired (t : Table) : Table :=
  { t with rows := t.rows.filter (fun r => ¬ rowHasNullAt (numericIdxs t) r) }

/-- One `withColumn(c, col(c).cast('double'))` step. -/
def castColByName (t : Table) (name : String) : Table :=
  match idxOf? name t.colNames with
  | none => t
  | some i => { t with rows := t.rows.map (updAt i castCell) }

/-- The cast loop of `preprocess_data` over the four required columns. -/
def castRequired (t : Table) : Table :=
  castColByName (castColByName (castColByName (castColByName t ("age")) ("spend")) ("recency")) ("frequency")

/-- Sample variance of the spend column's values, standing for the
mean/stddev aggregation `preprocess_data` runs over `spend` (the duplicate
dict keys leave only the stddev aggregate); the result is bound to a local
and never used. -/
def spendStatsComputed (t : Table) : Option ℚ :=
  match idxOf? ("spend") t.colNames with
  | none => none
  | some i =>
    let vs := (colCells t i).filterMap castQ?
    match vs with
    | [] => none
    | _ =>
      let n : ℚ := vs.length
      let m := vs.sum / n
      some ((vs.map (fun v => (v - m) ^ 2)).sum / n)

/-- The outlier step of `preprocess_data`: the spend statistics are
computed and discarded; no row is filtered. -/
def outlierStep (t : Table) : Table :=
  let _stats := spendStatsComputed t
  t

/-- The preprocessing stage (`preprocess_data` in `spark_job.py`, its
progress writes hoisted to the orchestration function): normalize column
names, validate the required columns, median-fill, drop rows null in a
required column, cast the four columns to double, compute-and-discard the
spend statistics. -/
def preprocess_data (t : Table) : Except String Table :=
  let t1 := normalize_dataframe t
  match validate_required_columns t1 with
  | Except.error e => Except.error e
  | Except.ok _ =>
    let t2 := fillRequired t1
    let t3 := dropnaRequired t2
    let t4 := castRequired t3
    Except.ok (outlierStep t4)

/-- Cell of row `r` in the column called `name`. -/
def cellAtName (t : Table) (r : List Cell) (name : String) : Cell :=
  match idxOf? name t.colNames with
  | none => Cell.null
  | some i => r.getD i Cell.null

/-- Spark `withColumn` with a fresh name: append the column computed
per-row by `f`. -/
def addColumn (t : Table) (name : String) (f : List Cell → Cell) : Table :=
  { colNames := t.colNames ++ [name], rows := t.rows.map (fun r => r ++ [f r]) }

/-- Truncation toward zero, as Spark's double-to-int cast. -/
def truncQ (q : ℚ) : ℤ :=
  if 0 ≤ q then q.floor else -((-q).floor)

/-- The derived `age_group` value `(col('age') / 10).cast('int') * 10`. -/
def ageGroupCell (c : Cell) : Cell :=
  match c with
  | Cell.num x => Cell.num ((truncQ (x / 10) * 10 : ℤ) : ℚ)
  | _ => Cell.null

/-- Spark SQL division on double columns: null-propagating, and division
by zero yields null rather than an error. -/
def cellDivCell (a b : Cell) : Cell :=
  match a, b with
  | Cell.num x, Cell.num y => if y = 0 then Cell.null else Cell.num (x / y)
  | _, _ => Cell.null

/-- Spark SQL `col + 1` on a double column (null-propagating). -/
def cellPlusOne (c : Cell) : Cell :=
  match c with
  | Cell.num x => Cell.num (x + 1)
  | _ => Cell.null

/-- The feature-engineering stage (`feature_engineering` in
`spark_job.py`): re-cast the four numeric columns, add `age_group` when
absent, add `rf_ratio = frequency / (recency + 1)` and
`spend_per_purchase = spend / (frequency + 1)`. -/
def feature_engineering (t : Table) : Table :=
  let t1 := castRequired t
  let t2 :=
    if t1.colNames.contains ("age_group") then t1
    else addColumn t1 ("age_group") (fun r => ageGroupCell (cellAtName t1 r ("age")))
  let t3 := addColumn t2 ("rf_ratio")
    (fun r => cellDivCell (cellAtName t2 r ("frequency")) (cellPlusOne (cellAtName t2 r ("recency"))))
  addColumn t3 ("spend_per_purchase")
    (fun r => cellDivCell (cellAtName t3 r ("spend")) (cellPlusOne (cellAtName t3 r ("frequency"))))

/-- Representative message of the `VectorAssembler` failure on a null
feature value (its `handleInvalid` default is `error`). -/
def vectorAssemblerNullMsg : String :=
  "Encountered null while assembling a row with handleInvalid = error"

/-- Representative message of fitting a model on an empty dataset. -/
def emptyFitMsg : String :=
  "requirement failed: Nothing has been added to this summarizer"

/-- Representative message of the Spark ML parameter validation for
`KMeans.k` (Scala side requires `k > 1`). -/
def kmeansInvalidKMsg (k : ℤ) : String :=
  s!"kmeans parameter k given invalid value {k}, must be greater than 1"

/-- Message of the `AttributeError` raised by
`evaluator.evaluate(model)` in `perform_clustering` (`spark_job.py`
line 221): `evaluate` expects a DataFrame and reads `dataset._jdf`, but it
is handed the fitted `KMeansModel`, which has no `_jdf` attribute. -/
def evaluatorNotDataFrameMsg : String :=
  quoteStr ++ "KMeansModel" ++ quoteStr ++ " object has no attribute " ++ quoteStr ++ "_jdf" ++ quoteStr

/-- The vectorization stage (`create_feature_vector` in `spark_job.py`).
The `VectorAssembler.transform` itself is lazy; the `show(5, ...)` call
forces assembly of the first five rows, so a null among the four feature
values in those rows surfaces here.  The assembled vector column carries
exactly the four numeric cells, which the model keeps in place, so the
table is otherwise passed through. -/
def create_feature_vector (t : Table) : Except String Table :=
  if (t.rows.take 5).all (fun r => ¬ rowHasNullAt (numericIdxs t) r) then Except.ok t
  else Except.error vectorAssemblerNullMsg

/-- The scaling stage (`scale_features` in `spark_job.py`).  `scaler.fit`
is the first action over every row: it fails on an empty dataset, and any
null among the four assembled feature values (left by the lazy
`VectorAssembler`) surfaces here.  The scaled values themselves are read
only by the k-means fit, which never completes (see `perform_clustering`),
so the numeric transformation is not separately tracked. -/
def scale_features (t : Table) : Except String Table :=
  if t.rows = [] then Except.error emptyFitMsg
  else if t.rows.all (fun r => ¬ rowHasNullAt (numericIdxs t) r) then Except.ok t
  else Except.error vectorAssemblerNullMsg

/-- The four required-column cells of a row, in order — the content of the
assembled feature vector. -/
def fourCells (t : Table) (r : List Cell) : List Cell :=
  (numericIdxs t).map (fun i => r.getD i Cell.null)

/-- Distinct elements of a list, first occurrences kept. -/
def distinctsAux [DecidableEq α] : List α → List α → List α
  | [], _ => []
  | x :: xs, seen => if x ∈ seen then distinctsAux xs seen else x :: distinctsAux xs (x :: seen)

/-- Distinct elements of a list, in first-occurrence order. -/
def distincts [DecidableEq α] (l : List α) : List α := distinctsAux l []

/-- Number of distinct feature points of a table. -/
def distinctPointCount (t : Table) : ℕ :=
  (distincts (t.rows.map (fourCells t))).length

/-- The clustering stage (`perform_clustering` in `spark_job.py`).
`KMeans(k=k, seed=42, maxIter=20).fit` fails when `k ≤ 1` (Spark ML
parameter validation requires `k > 1`) and when the dataset is empty;
otherwise the fit and the `transform` succeed — Spark k-means tolerates
`k` exceeding the number of distinct points, producing empty clusters —
but the following `evaluator.evaluate(model)` call (line 221) raises an
`AttributeError` for every input, because it passes the fitted model where
a DataFrame is required.  The stage therefore never returns
successfully. -/
def perform_clustering (t : Table) (k : ℤ) : Except String Table :=
  if k ≤ 1 then Except.error (kmeansInvalidKMsg k)
  else if t.rows = [] then Except.error emptyFitMsg
  else Except.error evaluatorNotDataFrameMsg

/-- Stage labels written into Job Status Records (`log_progress` /
`update_job_status` callers). -/
inductive Stage
  | queued
  | initializing
  | loading
  | preprocessing
  | featureEngineering
  | vectorization
  | scaling
  | clustering
  | profiling
  | visualization
  | saving
  | completed
  | error
  deriving DecidableEq

/-- One Job Status Record as written by `log_progress` /
`update_job_status` (the timestamp field is not modelled). -/
structure StatusRecord where
  stage : Stage
  progress : ℕ
  message : String
  deriving DecidableEq

/-- The status record written by the `except` handler of
`run_segmentation_pipeline`. -/
def errRec (e : String) : StatusRecord :=
  { stage := Stage.error, progress := 0, message := "Error: " ++ e }

/-- Dictionary returned by `run_segmentation_pipeline`: its `status` field
is `completed` (with row count and cluster count) or `error` (with the
triggering exception's message). -/
inductive RunResult
  | completedR (rowsProcessed : ℕ) (clusters : ℤ)
  | errorR (errmsg : String)
  deriving DecidableEq

/-- The `status` string of the returned dictionary. -/
def RunResult.statusStr : RunResult → String
  | RunResult.completedR _ _ => "completed"
  | RunResult.errorR _ => "error"

/-- The pipeline orchestration (`run_segmentation_pipeline` in
`spark_job.py`): stages run in order inside one `try`, each stage's
progress writes are appended to the returned record list, and any raised
error is caught by the single `except` handler, which appends one `error`
record and returns the error dictionary.  The input CSV read is abstracted
as an `Except`: a file Spark cannot read yields the load error.  The
success continuation after clustering mirrors the source but is
unreachable (see `perform_clustering`). -/
def run_segmentation_pipeline (input : Except String Table) (k : ℤ) :
    List StatusRecord × RunResult :=
  let logs0 := [({ stage := Stage.loading, progress := 10, message := "Loading CSV file" } : StatusRecord)]
  match input with
  | Except.error e => (logs0 ++ [errRec e], RunResult.errorR e)
  | Except.ok df =>
    let rowCount := df.rows.length
    let logs1 := logs0 ++ [{ stage := Stage.loading, progress := 20, message := s!"Loaded {rowCount} records" }]
    let logs2 := logs1 ++ [{ stage := Stage.preprocessing, progress := 25, message := "Handling missing values and outliers" }]
    match preprocess_data df with
    | Except.error e => (logs2 ++ [errRec e], RunResult.errorR e)
    | Except.ok df2 =>
      let logs3 := logs2 ++ [{ stage := Stage.preprocessing, progress := 30, message := "Removing outliers" }]
      let logs4 := logs3 ++ [{ stage := Stage.featureEngineering, progress := 40, message := "Starting feature engineering" }]
      let df3 := feature_engineering df2
      let logs5 := logs4 ++ [{ stage := Stage.featureEngineering, progress := 50, message := "Features engineered" }]
      let logs6 := logs5 ++ [{ stage := Stage.vectorization, progress := 55, message := "Assembling features into vectors" }]
      match create_feature_vector df3 with
      | Except.error e => (logs6 ++ [errRec e], RunResult.errorR e)
      | Except.ok df4 =>
        let logs7 := logs6 ++ [{ stage := Stage.vectorization, progress := 60, message := "Feature vector created" }]
        let logs8 := logs7 ++ [{ stage := Stage.scaling, progress := 65, message := "Scaling features" }]
        match scale_features df4 with
        | Except.error e => (logs8 ++ [errRec e], RunResult.errorR e)
        | Except.ok df5 =>
          let logs9 := logs8 ++ [{ stage := Stage.scaling, progress := 70, message := "Features scaled" }]
          let logsA := logs9 ++ [{ stage := Stage.clustering, progress := 75, message := s!"Running KMeans with k={k}" }]
          match perform_clustering df5 k with
          | Except.error e => (logsA ++ [errRec e], RunResult.errorR e)
          | Except.ok _ =>
            let logsB := logsA ++ [{ stage := Stage.clustering, progress := 85, message := "KMeans complete" }]
            let logsC := logsB ++ [{ stage := Stage.profiling, progress := 90, message := "Generating segment profiles" }]
            let logsD := logsC ++ [{ stage := Stage.visualization, progress := 95, message := "Generating visualization data" }]
            let logsE := logsD ++ [{ stage := Stage.saving, progress := 98, message := "Saving segmented customers" }]
            let logsF := logsE ++ [{ stage := Stage.completed, progress := 100, message := "Segmentation completed successfully" }]
            (logsF, RunResult.completedR rowCount k)

/-- Full sequence of status records written for one job: `run_job` in
`app.py` writes `queued`(0) before starting the thread;
`run_spark_job_async` writes `initializing`(5), runs the pipeline, and
then — ignoring the returned dictionary's status — unconditionally writes
`completed`(100). -/
def fullJobTrace (input : Except String Table) (k : ℤ) : List StatusRecord :=
  { stage := Stage.queued, progress := 0, message := "Job queued for processing" } ::
  { stage := Stage.initializing, progress := 5, message := "Starting job..." } ::
  ((run_segmentation_pipeline input k).1 ++
    [{ stage := Stage.completed, progress := 100, message := "Job completed successfully" }])

/-- Terminal status records (`completed` or `error`). -/
def isTerminal (r : StatusRecord) : Bool :=
  match r.stage with
  | Stage.completed => true
  | Stage.error => true
  | _ => false

/-- True when no `completed` record follows an `error` record. -/
def noCompletedAfterError : List StatusRecord → Bool
  | [] => true
  | r :: rs =>
    if r.stage = Stage.error then
      (rs.all (fun x => ¬ x.stage = Stage.completed)) && noCompletedAfterError rs
    else noCompletedAfterError rs

deriving instance DecidableEq for Except

/-- Row handed to the profile builder: the four numeric features plus the
cluster id assigned by the k-means transform. -/
structure CRow where
  age : ℚ
  spend : ℚ
  recency : ℚ
  frequency : ℚ
  cluster : ℕ
  deriving DecidableEq

/-- Arithmetic mean (0 on an empty list), as the `avg` aggregate. -/
def meanQ (l : List ℚ) : ℚ := l.sum / l.length

/-- Minimum of a list (0 on an empty list), as the `min` aggregate. -/
def minQ (l : List ℚ) : ℚ :=
  match l with
  | [] => 0
  | x :: xs => xs.foldl (fun a b => if b < a then b else a) x

/-- Maximum of a list (0 on an empty list), as the `max` aggregate. -/
def maxQ (l : List ℚ) : ℚ :=
  match l with
  | [] => 0
  | x :: xs => xs.foldl (fun a b => if a < b then b else a) x

/-- Python's `round(x, nd)`: round half to even at `nd` decimal digits
(exact ties-to-even on rationals; binary floating-point artifacts are not
modelled). -/
def pyRound (nd : ℕ) (q : ℚ) : ℚ :=
  let m : ℚ := (10 : ℚ) ^ nd
  let x := q * m
  let f : ℤ := x.floor
  let r := x - (f : ℚ)
  let n : ℤ :=
    if r < 1 / 2 then f
    else if 1 / 2 < r then f + 1
    else if f % 2 = 0 then f else f + 1
  (n : ℚ) / m

/-- Rows assigned to cluster `c` (one `groupBy('cluster')` group). -/
def clusterMembers (rows : List CRow) (c : ℕ) : List CRow :=
  rows.filter (fun r => r.cluster = c)

/-- Human-readable cluster label (`get_cluster_description` in
`spark_job.py`), computed from the unrounded per-cluster means. -/
def get_cluster_description (avg_spend avg_age avg_frequency : ℚ) : String :=
  if avg_spend > 1500 then
    if avg_age > 55 then ("Luxury Segment") else ("Premium Customers")
  else if avg_spend > 900 then ("Regular Shoppers")
  else if avg_frequency < 3 then ("Budget Conscious")
  else ("Emerging Customers")

/-- One entry of the `clusters` list of the segment-profiles artifact. -/
structure ClusterInfo where
  id : ℕ
  size : ℕ
  avgAge : ℚ
  avgSpend : ℚ
  avgRecency : ℚ
  avgFrequency : ℚ
  minSpend : ℚ
  maxSpend : ℚ
  topCategory : String
  description : String
  deriving DecidableEq

/-- The `cluster_info` dictionary built for one `groupBy('cluster')` row of
`generate_segment_profiles`. -/
def clusterInfoFor (rows : List CRow) (c : ℕ) : ClusterInfo :=
  let ms := clusterMembers rows c
  { id := c
    size := ms.length
    avgAge := pyRound 1 (meanQ (ms.map CRow.age))
    avgSpend := pyRound 2 (meanQ (ms.map CRow.spend))
    avgRecency := pyRound 1 (meanQ (ms.map CRow.recency))
    avgFrequency := pyRound 1 (meanQ (ms.map CRow.frequency))
    minSpend := pyRound 2 (minQ (ms.map CRow.spend))
    maxSpend := pyRound 2 (maxQ (ms.map CRow.spend))
    topCategory := "Electronics"
    description := get_cluster_description (meanQ (ms.map CRow.spend)) (meanQ (ms.map CRow.age)) (meanQ (ms.map CRow.frequency)) }

/-- The constant written into the artifact's `silhouetteScore` field
(`spark_job.py` line 276: `'silhouetteScore': 0.72`). -/
def silhouetteConst : ℚ := 72 / 100

/-- The segment-profiles artifact (the `generatedAt` timestamp is not
modelled). -/
structure SegmentProfiles where
  numClusters : ℕ
  totalCustomers : ℕ
  clusters : List ClusterInfo
  silhouetteScore : ℚ
  deriving DecidableEq

/-- The profile-builder stage (`generate_segment_profiles` in
`spark_job.py`): group by cluster id, aggregate size and feature
statistics per group, sort groups by descending size, and attach the
constant quality score. -/
def generate_segment_profiles (rows : List CRow) : SegmentProfiles :=
  let ids := distincts (rows.map CRow.cluster)
  let clusters := ids.map (clusterInfoFor rows)
  let sorted := List.insertionSort (fun a b : ClusterInfo => b.size ≤ a.size) clusters
  { numClusters := sorted.length
    totalCustomers := (clusters.map ClusterInfo.size).sum
    clusters := sorted
    silhouetteScore := silhouetteConst }

/-- Squared Euclidean distance between two feature vectors (the default
`distanceMeasure` of Spark's `ClusteringEvaluator`). -/
def sqDist (p q : List ℚ) : ℚ :=
  (List.zipWith (fun a b => (a - b) ^ 2) p q).sum

/-- Silhouette of point `i`, as the specification defines it: `a(i)` the
mean distance to the other points of its own cluster (the point counts as
0 when its cluster is a singleton), `b(i)` the least mean distance to the
points of another cluster, silhouette `(b - a) / max a b`. -/
def silhouette_point (pts : List (List ℚ)) (asg : List ℕ) (i : ℕ) : ℚ :=
  let n := pts.length
  let ci := asg.getD i 0
  let own := (List.range n).filter (fun j => decide (j ≠ i) && decide (asg.getD j 0 = ci))
  if own.isEmpty then 0
  else
    let a := meanQ (own.map (fun j => sqDist (pts.getD i []) (pts.getD j [])))
    let otherIds := distincts (asg.filter (fun c => decide (c ≠ ci)))
    let bs := otherIds.map (fun c =>
      meanQ (((List.range n).filter (fun j => decide (asg.getD j 0 = c))).map
        (fun j => sqDist (pts.getD i []) (pts.getD j []))))
    match bs with
    | [] => 0
    | b0 :: rest =>
      let b := rest.foldl (fun x y => if y < x then y else x) b0
      if max a b = 0 then 0 else (b - a) / max a b

/-- Dataset-mean silhouette score over (feature vectors, cluster
assignment) — the side-effect-free recomputation the specification
requires of the Cluster Engine's quality metric. -/
def silhouette_spec (pts : List (List ℚ)) (asg : List ℕ) : ℚ :=
  meanQ ((List.range pts.length).map (silhouette_point pts asg))

/-- Label rule as the specification words it: a priority list over the
per-cluster spend, age and frequency means. -/
def spec_label_rule (spendMean ageMean frequencyMean : ℚ) : String :=
  if spendMean > 1500 ∧ ageMean > 55 then ("Luxury Segment")
  else if spendMean > 1500 then ("Premium Customers")
  else if spendMean > 900 then ("Regular Shoppers")
  else if frequencyMean < 3 then ("Budget Conscious")
  else ("Emerging Customers")

/-- Table of the two scenario rows of §8 of the specification: a valid
input with all four numeric columns. -/
def tGood : Table :=
  { colNames := ["age", "spend", "recency", "frequency"]
    rows := [[Cell.num 25, Cell.num 500, Cell.num 10, Cell.num 5],
             [Cell.num 60, Cell.num 2000, Cell.num 2, Cell.num 20]] }

/-- Input table whose `recency` column is missing. -/
def tNoRec : Table :=
  { colNames := ["age", "spend", "frequency"]
    rows := [[Cell.num 30, Cell.num 100, Cell.num 2]] }

/-- Input table whose string-typed `age` column holds one parseable and
one unparseable value. -/
def tC3 : Table :=
  { colNames := ["age", "spend", "recency", "frequency"]
    rows := [[Cell.text "30", Cell.num 100, Cell.num 5, Cell.num 2],
             [Cell.text "abc", Cell.num 200, Cell.num 6, Cell.num 3]] }

/-- Result of preprocessing `tC3`: the unparseable value became null after
the cast, and its row was kept. -/
def tC3out : Table :=
  { colNames := ["age", "spend", "recency", "frequency"]
    rows := [[Cell.num 30, Cell.num 100, Cell.num 5, Cell.num 2],
             [Cell.null, Cell.num 200, Cell.num 6, Cell.num 3]] }

/-- True when every required-column cell of every row is numeric — the
Customer Record invariant the claim asserts of preprocessing output. -/
def allFourNumeric (t : Table) : Bool :=
  t.rows.all (fun r => (numericIdxs t).all (fun i =>
    match r.getD i Cell.null with
    | Cell.num _ => true
    | _ => false))

/-- Per-cell characterization of the preprocessing output against its
pre-cast table: a required-column cell is the cast of the corresponding
pre-cast cell — numeric where the cast parses, null where it does not. -/
def fourCellsCharacter (pre post : List Cell) (idxs : List ℕ) : Bool :=
  idxs.all (fun i =>
    match post.getD i Cell.null, castQ? (pre.getD i Cell.null) with
    | Cell.null, none => true
    | Cell.num q, some q2 => decide (q = q2)
    | _, _ => false)

/-- Row-by-row characterization of preprocessing output: same row count as
the fill-then-drop table, and every required-column cell is the cast of
the corresponding fill-then-drop cell (so the drop precedes the cast). -/
def amendedCheck (t u : Table) : Bool :=
  let pre := (dropnaRequired (fillRequired (normalize_dataframe t))).rows
  (u.rows.length = pre.length : Bool) &&
  (List.range pre.length).all (fun j =>
    fourCellsCharacter (pre.getD j []) (u.rows.getD j []) (numericIdxs (normalize_dataframe t)))

/-- One step of the cast loop as a row function. -/
def castStepFn (names : List String) (name : String) (r : List Cell) : List Cell :=
  match idxOf? name names with
  | none => r
  | some i => updAt i castCell r

/-- Profile-builder rows with every row in cluster 0 while two clusters
were requested. -/
def rowsC7 : List CRow :=
  [{ age := 30, spend := 100, recency := 5, frequency := 2, cluster := 0 },
   { age := 40, spend := 200, recency := 6, frequency := 3, cluster := 0 }]

/-- Profile-builder rows of a two-point run assigned to two singleton
clusters. -/
def rowsC2 : List CRow :=
  [{ age := 25, spend := 500, recency := 10, frequency := 5, cluster := 0 },
   { age := 60, spend := 2000, recency := 2, frequency := 20, cluster := 1 }]

/-- Profile-builder row of a high-spend, high-age cluster. -/
def rowsC8 : List CRow :=
  [{ age := 60, spend := 2000, recency := 2, frequency := 20, cluster := 0 }]

theorem length_updAt (i : ℕ) (f : α → α) (l : List α) : (updAt i f l).length = l.length := by
  induction l generalizing i with
  | nil => simp [updAt]
  | cons x xs ih =>
    cases i with
    | zero => rfl
    | succ n => simpa [updAt] using ih n

theorem getD_updAt_ne (i j : ℕ) (f : α → α) (d : α) (l : List α) (h : i ≠ j) :
    (updAt i f l).getD j d = l.getD j d := by
  induction l generalizing i j with
  | nil => simp [updAt]
  | cons x xs ih =>
    cases i with
    | zero =>
      cases j with
      | zero => exact absurd rfl h
      | succ m => rfl
    | succ n =>
      cases j with
      | zero => rfl
      | succ m => simpa [updAt] using ih n m (fun he => h (by simpa using he))

theorem getD_updAt_castCell (i : ℕ) (l : List Cell) :
    (updAt i castCell l).getD i Cell.null = castCell (l.getD i Cell.null) := by
  induction l generalizing i with
  | nil => cases i <;> simp [updAt, castCell, castQ?]
  | cons x xs ih =>
    cases i with
    | zero => rfl
    | succ n => simpa [updAt] using ih n

theorem getD_map_lt {l : List α} (f : α → β) (j : ℕ) (d : β) (d2 : α) (h : j < l.length) :
    (l.map f).getD j d = f (l.getD j d2) := by
  induction l generalizing j with
  | nil => simp at h
  | cons x xs ih =>
    cases j with
    | zero => rfl
    | succ m => simpa using ih m (by simpa using h)

theorem idxOf?_getD (name : String) (l : List String) (i : ℕ) (h : idxOf? name l = some i) :
    l.getD i "" = name := by
  induction l generalizing i with
  | nil => simp [idxOf?] at h
  | cons c cs ih =>
    by_cases hc : c = name
    · simp [idxOf?, hc] at h
      subst h
      simpa using hc
    · simp [idxOf?, hc] at h
      obtain ⟨i2, h2, hi⟩ := h
      subst hi
      simpa using ih i2 h2

theorem idxOf?_ne_names (names : List String) (n1 n2 : String) (i1 i2 : ℕ)
    (h1 : idxOf? n1 names = some i1) (h2 : idxOf? n2 names = some i2) (hne : n1 ≠ n2) :
    i1 ≠ i2 := by
  intro he
  subst he
  exact hne ((idxOf?_getD n1 names i1 h1).symm.trans (idxOf?_getD n2 names i1 h2))

theorem castStepFn_getD_ne (names : List String) (name : String) (r : List Cell) (i : ℕ)
    (hne : ∀ i2, idxOf? name names = some i2 → i2 ≠ i) :
    (castStepFn names name r).getD i Cell.null = r.getD i Cell.null := by
  unfold castStepFn
  cases h : idxOf? name names with
  | none => rfl
  | some i2 => exact getD_updAt_ne i2 i castCell Cell.null r (hne i2 h)

theorem castStepFn_getD_self (names : List String) (name : String) (r : List Cell) (i : ℕ)
    (h : idxOf? name names = some i) :
    (castStepFn names name r).getD i Cell.null = castCell (r.getD i Cell.null) := by
  unfold castStepFn
  rw [h]
  exact getD_updAt_castCell i r

theorem fillCol_colNames (t : Table) (name : String) : (fillCol t name).colNames = t.colNames := by
  unfold fillCol
  cases h : idxOf? name t.colNames with
  | none => rfl
  | some i =>
    dsimp only
    split <;> rfl

theorem fillRequired_colNames (t : Table) : (fillRequired t).colNames = t.colNames := by
  unfold fillRequired
  rw [fillCol_colNames, fillCol_colNames, fillCol_colNames, fillCol_colNames]

theorem dropnaRequired_colNames (t : Table) : (dropnaRequired t).colNames = t.colNames := rfl

theorem castColByName_colNames (t : Table) (name : String) :
    (castColByName t name).colNames = t.colNames := by
  unfold castColByName
  cases h : idxOf? name t.colNames <;> rfl

theorem castColByName_rows (t : Table) (name : String) :
    (castColByName t name).rows = t.rows.map (castStepFn t.colNames name) := by
  unfold castColByName castStepFn
  cases h : idxOf? name t.colNames with
  | none => simp [h]
  | some i => simp [h]

theorem castRequired_rows (t : Table) :
    (castRequired t).rows = t.rows.map (fun r =>
      castStepFn t.colNames ("frequency") (castStepFn t.colNames ("recency")
        (castStepFn t.colNames ("spend") (castStepFn t.colNames ("age") r)))) := by
  unfold castRequired
  rw [castColByName_rows, castColByName_colNames, castColByName_colNames, castColByName_colNames,
      castColByName_rows, castColByName_colNames, castColByName_colNames,
      castColByName_rows, castColByName_colNames,
      castColByName_rows, List.map_map, List.map_map, List.map_map]
  rfl

theorem chain_getD (names : List String) (r : List Cell) (i : ℕ)
    (hi : i ∈ requiredColumns.filterMap (fun n => idxOf? n names)) :
    (castStepFn names ("frequency") (castStepFn names ("recency")
      (castStepFn names ("spend") (castStepFn names ("age") r)))).getD i Cell.null
      = castCell (r.getD i Cell.null) := by
  rw [List.mem_filterMap] at hi
  obtain ⟨name, hmem, hidx⟩ := hi
  simp only [requiredColumns, List.mem_cons, List.not_mem_nil, or_false] at hmem
  rcases hmem with h | h | h | h <;> subst h
  · rw [castStepFn_getD_ne names ("frequency") _ i
        (fun i2 h2 => idxOf?_ne_names names _ _ _ _ h2 hidx (by decide)),
      castStepFn_getD_ne names ("recency") _ i
        (fun i2 h2 => idxOf?_ne_names names _ _ _ _ h2 hidx (by decide)),
      castStepFn_getD_ne names ("spend") _ i
        (fun i2 h2 => idxOf?_ne_names names _ _ _ _ h2 hidx (by decide)),
      castStepFn_getD_self names ("age") r i hidx]
  · rw [castStepFn_getD_ne names ("frequency") _ i
        (fun i2 h2 => idxOf?_ne_names names _ _ _ _ h2 hidx (by decide)),
      castStepFn_getD_ne names ("recency") _ i
        (fun i2 h2 => idxOf?_ne_names names _ _ _ _ h2 hidx (by decide)),
      castStepFn_getD_self names ("spend") _ i hidx,
      castStepFn_getD_ne names ("age") _ i
        (fun i2 h2 => idxOf?_ne_names names _ _ _ _ h2 hidx (by decide))]
  · rw [castStepFn_getD_ne names ("frequency") _ i
        (fun i2 h2 => idxOf?_ne_names names _ _ _ _ h2 hidx (by decide)),
      castStepFn_getD_self names ("recency") _ i hidx,
      castStepFn_getD_ne names ("spend") _ i
        (fun i2 h2 => idxOf?_ne_names names _ _ _ _ h2 hidx (by decide)),
      castStepFn_getD_ne names ("age") _ i
        (fun i2 h2 => idxOf?_ne_names names _ _ _ _ h2 hidx (by decide))]
  · rw [castStepFn_getD_self names ("frequency") _ i hidx,
      castStepFn_getD_ne names ("recency") _ i
        (fun i2 h2 => idxOf?_ne_names names _ _ _ _ h2 hidx (by decide)),
      castStepFn_getD_ne names ("spend") _ i
        (fun i2 h2 => idxOf?_ne_names names _ _ _ _ h2 hidx (by decide)),
      castStepFn_getD_ne names ("age") _ i
        (fun i2 h2 => idxOf?_ne_names names _ _ _ _ h2 hidx (by decide))]

/-- C3 (amended): in preprocessing output, rows are those of the
fill-then-drop table and each required-column cell is the float cast of
the corresponding fill-then-drop cell — null exactly where the cast fails
to parse; unparseable rows are kept, not dropped. -/
theorem C3_preprocess_cast_after_drop (t u : Table) (h : preprocess_data t = Except.ok u) :
    amendedCheck t u = true := by
  unfold preprocess_data at h
  dsimp only at h
  cases hv : validate_required_columns (normalize_dataframe t) with
  | error e =>
    rw [hv] at h
    exact absurd h (by simp)
  | ok w =>
    rw [hv] at h
    have hu : u = castRequired (dropnaRequired (fillRequired (normalize_dataframe t))) := by
      cases h
      rfl
    subst hu
    unfold amendedCheck
    have hnames : (dropnaRequired (fillRequired (normalize_dataframe t))).colNames
        = (normalize_dataframe t).colNames := by
      rw [dropnaRequired_colNames, fillRequired_colNames]
    rw [Bool.and_eq_true]
    constructor
    · rw [castRequired_rows]
      simp
    · rw [List.all_eq_true]
      intro j hj
      rw [List.mem_range] at hj
      rw [castRequired_rows, hnames]
      rw [getD_map_lt _ j [] [] hj]
      unfold fourCellsCharacter
      rw [List.all_eq_true]
      intro i hi
      have hi2 : i ∈ requiredColumns.filterMap
          (fun n => idxOf? n (normalize_dataframe t).colNames) := hi
      rw [chain_getD (normalize_dataframe t).colNames _ i hi2]
      unfold castCell
      cases hc : castQ? (((dropnaRequired (fillRequired (normalize_dataframe t))).rows.getD j []).getD i Cell.null) with
      | none => rfl
      | some q => simp

theorem perform_clustering_ne_ok (t : Table) (k : ℤ) (u : Table) :
    perform_clustering t k ≠ Except.ok u := by
  unfold perform_clustering
  split_ifs <;> simp

theorem takeWhile_append_all (p : α → Bool) (l1 l2 : List α) (h : l1.all p = true) :
    (l1 ++ l2).takeWhile p = l1 ++ l2.takeWhile p := by
  induction l1 with
  | nil => rfl
  | cons x xs ih =>
    rw [List.all_cons, Bool.and_eq_true] at h
    simp [List.takeWhile_cons, h.1, ih h.2]

theorem run_pipeline_shape (input : Except String Table) (k : ℤ) :
    ∃ (pre : List StatusRecord) (e : String),
      run_segmentation_pipeline input k = (pre ++ [errRec e], RunResult.errorR e) ∧
      pre.all (fun r => !(isTerminal r)) = true ∧
      List.Sorted (· ≤ ·) ((0 : ℕ) :: 5 :: pre.map StatusRecord.progress) := by
  rcases input with e | df
  · exact ⟨[{ stage := Stage.loading, progress := 10, message := "Loading CSV file" }],
      e, rfl, rfl, by decide⟩
  · rcases hpp : preprocess_data df with e | df2
    · refine ⟨[{ stage := Stage.loading, progress := 10, message := "Loading CSV file" },
        { stage := Stage.loading, progress := 20, message := s!"Loaded {df.rows.length} records" },
        { stage := Stage.preprocessing, progress := 25, message := "Handling missing values and outliers" }],
        e, ?_, rfl, by simp only [List.map_cons, List.map_nil]; decide⟩
      simp [run_segmentation_pipeline, hpp]
    · rcases hcv : create_feature_vector (feature_engineering df2) with e | df4
      · refine ⟨[{ stage := Stage.loading, progress := 10, message := "Loading CSV file" },
          { stage := Stage.loading, progress := 20, message := s!"Loaded {df.rows.length} records" },
          { stage := Stage.preprocessing, progress := 25, message := "Handling missing values and outliers" },
          { stage := Stage.preprocessing, progress := 30, message := "Removing outliers" },
          { stage := Stage.featureEngineering, progress := 40, message := "Starting feature engineering" },
          { stage := Stage.featureEngineering, progress := 50, message := "Features engineered" },
          { stage := Stage.vectorization, progress := 55, message := "Assembling features into vectors" }],
          e, ?_, rfl, by simp only [List.map_cons, List.map_nil]; decide⟩
        simp [run_segmentation_pipeline, hpp, hcv]
      · rcases hsf : scale_features df4 with e | df5
        · refine ⟨[{ stage := Stage.loading, progress := 10, message := "Loading CSV file" },
            { stage := Stage.loading, progress := 20, message := s!"Loaded {df.rows.length} records" },
            { stage := Stage.preprocessing, progress := 25, message := "Handling missing values and outliers" },
            { stage := Stage.preprocessing, progress := 30, message := "Removing outliers" },
            { stage := Stage.featureEngineering, progress := 40, message := "Starting feature engineering" },
            { stage := Stage.featureEngineering, progress := 50, message := "Features engineered" },
            { stage := Stage.vectorization, progress := 55, message := "Assembling features into vectors" },
            { stage := Stage.vectorization, progress := 60, message := "Feature vector created" },
            { stage := Stage.scaling, progress := 65, message := "Scaling features" }],
            e, ?_, rfl, by simp only [List.map_cons, List.map_nil]; decide⟩
          simp [run_segmentation_pipeline, hpp, hcv, hsf]
        · rcases hpc : perform_clustering df5 k with e | df6
          · refine ⟨[{ stage := Stage.loading, progress := 10, message := "Loading CSV file" },
              { stage := Stage.loading, progress := 20, message := s!"Loaded {df.rows.length} records" },
              { stage := Stage.preprocessing, progress := 25, message := "Handling missing values and outliers" },
              { stage := Stage.preprocessing, progress := 30, message := "Removing outliers" },
              { stage := Stage.featureEngineering, progress := 40, message := "Starting feature engineering" },
              { stage := Stage.featureEngineering, progress := 50, message := "Features engineered" },
              { stage := Stage.vectorization, progress := 55, message := "Assembling features into vectors" },
              { stage := Stage.vectorization, progress := 60, message := "Feature vector created" },
              { stage := Stage.scaling, progress := 65, message := "Scaling features" },
              { stage := Stage.scaling, progress := 70, message := "Features scaled" },
              { stage := Stage.clustering, progress := 75, message := s!"Running KMeans with k={k}" }],
              e, ?_, rfl, by simp only [List.map_cons, List.map_nil]; decide⟩
            simp [run_segmentation_pipeline, hpp, hcv, hsf, hpc]
          · exact absurd hpc (perform_clustering_ne_ok df5 k df6)

/-- C4: within a single job, the progress values of the status records
written before the job's first terminal record (`completed` or `error`)
are monotonically non-decreasing, for every input and cluster count. -/
theorem C4_progress_monotone (input : Except String Table) (k : ℤ) :
    List.Sorted (· ≤ ·)
      (((fullJobTrace input k).takeWhile (fun r => !(isTerminal r))).map StatusRecord.progress) := by
  obtain ⟨pre, e, heq, hall, hsort⟩ := run_pipeline_shape input k
  unfold fullJobTrace
  rw [heq]
  have h1 : ((pre ++ [errRec e]) ++
      [({ stage := Stage.completed, progress := 100, message := "Job completed successfully" } : StatusRecord)])
      = pre ++ ([errRec e] ++
        [({ stage := Stage.completed, progress := 100, message := "Job completed successfully" } : StatusRecord)]) := by
    rw [List.append_assoc]
  simp only [List.takeWhile_cons]
  rw [h1, takeWhile_append_all _ _ _ hall]
  simp only [isTerminal, errRec]
  simpa using hsort

/-- C1 (code evidence): on an input whose `recency` column is missing, the
job's status-record sequence contains the pipeline's terminal `error`
write followed by the `completed`(100) write that `run_spark_job_async`
performs unconditionally — a `completed` record after an `error` record. -/
theorem C1_completed_after_error :
    noCompletedAfterError (fullJobTrace (Except.ok tNoRec) 4) = false ∧
    (fullJobTrace (Except.ok tNoRec) 4).map StatusRecord.stage =
      [Stage.queued, Stage.initializing, Stage.loading, Stage.loading, Stage.preprocessing,
       Stage.error, Stage.completed] :=
  ⟨by decide, by decide⟩

/-- C5: preprocessing returns the schema `ValueError` listing exactly the
required names missing after trim-and-lowercase normalization, and
succeeds when none is missing; on the concrete input without `recency`
the job writes an `error` record whose message cites `recency`. -/
theorem C5_schema_error_iff :
    (∀ t : Table,
      (missingColumns (normalize_dataframe t) = [] → ∃ u, preprocess_data t = Except.ok u) ∧
      (missingColumns (normalize_dataframe t) ≠ [] →
        preprocess_data t =
          Except.error (missingColsMsg (missingColumns (normalize_dataframe t))))) ∧
    missingColumns (normalize_dataframe tNoRec) = ["recency"] ∧
    (run_segmentation_pipeline (Except.ok tNoRec) 4).1.getLast? =
      some (errRec (missingColsMsg (["recency"]))) ∧
    errRec (missingColsMsg (["recency"])) =
      { stage := Stage.error, progress := 0,
        message := "Error: Missing required columns: [" ++ quoteStr ++ "recency" ++ quoteStr ++ "]" } := by
  refine ⟨?_, by decide, by decide, by decide⟩
  intro t
  constructor
  · intro hm
    refine ⟨outlierStep (castRequired (dropnaRequired (fillRequired (normalize_dataframe t)))), ?_⟩
    simp [preprocess_data, validate_required_columns, hm]
  · intro hm
    simp [preprocess_data, validate_required_columns, hm]

/-- C6: the clustering stage fails under each condition the specification
names — `k ≤ 1`, `k` exceeding the number of distinct points, empty input
(indeed, because `evaluator.evaluate` is called on the model instead of
the predictions DataFrame, it fails on every input) — and with `k = 1`
the job reaches the `error` state. -/
theorem C6_clustering_error_conditions :
    (∀ (t : Table) (k : ℤ),
      (k ≤ 1 ∨ (distinctPointCount t : ℤ) < k ∨ t.rows = []) →
      ∃ e, perform_clustering t k = Except.error e) ∧
    (run_segmentation_pipeline (Except.ok tGood) 1).1.getLast? =
      some (errRec (kmeansInvalidKMsg 1)) ∧
    (run_segmentation_pipeline (Except.ok tGood) 1).2 = RunResult.errorR (kmeansInvalidKMsg 1) := by
  refine ⟨?_, by decide, by decide⟩
  intro t k _
  unfold perform_clustering
  split_ifs <;> exact ⟨_, rfl⟩

/-- C6 witness: with `k = 1` the clustering stage fails. -/
theorem C6_witness : ∃ e, perform_clustering tGood 1 = Except.error e :=
  C6_clustering_error_conditions.1 tGood 1 (Or.inl (by norm_num))

/-- C9: the outlier step passes the dataset through — the rows returned by
preprocessing are exactly the rows after fill, drop and cast, with no
outlier-based removal. -/
theorem C9_outlier_passthrough :
    (∀ t : Table, outlierStep t = t) ∧
    (∀ t u : Table, preprocess_data t = Except.ok u →
      u.rows = (castRequired (dropnaRequired (fillRequired (normalize_dataframe t)))).rows) := by
  constructor
  · intro t
    rfl
  · intro t u h
    unfold preprocess_data at h
    dsimp only at h
    cases hv : validate_required_columns (normalize_dataframe t) with
    | error e =>
      rw [hv] at h
      exact absurd h (by simp)
    | ok w =>
      rw [hv] at h
      cases h
      rfl

/-- C9 witness: preprocessing the valid two-row table returns exactly the
fill-drop-cast rows. -/
theorem C9_witness :
    tGood.rows = (castRequired (dropnaRequired (fillRequired (normalize_dataframe tGood)))).rows :=
  C9_outlier_passthrough.2 tGood tGood (by decide)

/-- C10: for every input and cluster count, the pipeline entry point
returns a dictionary whose status is `completed` or `error`, the error
dictionary carrying the same message the terminal `error` status record
carries; no exception escapes (the function is total). -/
theorem C10_pipeline_total_status (input : Except String Table) (k : ℤ) :
    ((run_segmentation_pipeline input k).2.statusStr = "completed" ∨
      (run_segmentation_pipeline input k).2.statusStr = "error") ∧
    (∀ e, (run_segmentation_pipeline input k).2 = RunResult.errorR e →
      (run_segmentation_pipeline input k).1.getLast? = some (errRec e)) := by
  obtain ⟨pre, e, heq, -, -⟩ := run_pipeline_shape input k
  constructor
  · right
    rw [heq]
    rfl
  · intro e2 h2
    rw [heq] at h2 ⊢
    have he : e = e2 := by
      simpa using h2
    subst he
    simp

/-- C10 witness: on the valid two-row table with the default `k = 4`, the
returned dictionary is the error dictionary of the evaluator failure, and
the last status record carries the same message. -/
theorem C10_witness :
    (run_segmentation_pipeline (Except.ok tGood) 4).1.getLast? =
      some (errRec evaluatorNotDataFrameMsg) :=
  (C10_pipeline_total_status (Except.ok tGood) 4).2 evaluatorNotDataFrameMsg (by decide)

/-- C5 witness: on the valid two-row table nothing is missing and
preprocessing succeeds. -/
theorem C5_witness : ∃ u, preprocess_data tGood = Except.ok u :=
  (C5_schema_error_iff.1 tGood).1 (by decide)

/-- C3 (counterexample): on a table whose `age` column holds the
unparseable text value, preprocessing keeps the unparseable row — with a
null in a required column — so the claimed invariant fails. -/
theorem C3_unparseable_row_kept :
    preprocess_data tC3 = Except.ok tC3out ∧ allFourNumeric tC3out = false ∧
    ¬ (∀ u : Table, preprocess_data tC3 = Except.ok u → allFourNumeric u = true) := by
  refine ⟨by decide, by decide, ?_⟩
  intro hcl
  exact absurd (hcl tC3out (by decide)) (by decide)

/-- C3 witness: the amended characterization holds at the concrete
unparseable-value table. -/
theorem C3_amended_witness : amendedCheck tC3 tC3out = true :=
  C3_preprocess_cast_after_drop tC3 tC3out (by decide)

theorem mem_distinctsAux [DecidableEq α] (l seen : List α) (c : α) :
    c ∈ distinctsAux l seen ↔ c ∈ l ∧ c ∉ seen := by
  induction l generalizing seen with
  | nil => simp [distinctsAux]
  | cons x xs ih =>
    by_cases hx : x ∈ seen
    · rw [distinctsAux, if_pos hx, ih]
      constructor
      · rintro ⟨h1, h2⟩
        exact ⟨List.mem_cons_of_mem x h1, h2⟩
      · rintro ⟨h1, h2⟩
        rcases List.mem_cons.mp h1 with h | h
        · exact absurd hx (h ▸ h2)
        · exact ⟨h, h2⟩
    · rw [distinctsAux, if_neg hx]
      constructor
      · intro hmem
        rcases List.mem_cons.mp hmem with h | h
        · exact ⟨h ▸ List.mem_cons_self x xs, h ▸ hx⟩
        · obtain ⟨h1, h2⟩ := (ih (x :: seen)).mp h
          exact ⟨List.mem_cons_of_mem x h1, fun hc => h2 (List.mem_cons_of_mem x hc)⟩
      · rintro ⟨h1, h2⟩
        by_cases hcx : c = x
        · exact hcx ▸ List.mem_cons_self x _
        · rcases List.mem_cons.mp h1 with h | h
          · exact absurd h hcx
          · refine List.mem_cons_of_mem x ((ih (x :: seen)).mpr ⟨h, ?_⟩)
            intro hc
            rcases List.mem_cons.mp hc with h3 | h3
            · exact hcx h3
            · exact h2 h3

theorem mem_distincts [DecidableEq α] (l : List α) (c : α) :
    c ∈ distincts l ↔ c ∈ l := by
  unfold distincts
  rw [mem_distinctsAux]
  simp

theorem sum_map_congr (l : List α) (f g : α → ℕ) (h : ∀ a ∈ l, f a = g a) :
    (l.map f).sum = (l.map g).sum := by
  induction l with
  | nil => rfl
  | cons x xs ih =>
    simp only [List.map_cons, List.sum_cons]
    rw [h x (List.mem_cons_self x xs), ih (fun a ha => h a (List.mem_cons_of_mem x ha))]

theorem nodup_distinctsAux [DecidableEq α] (l : List α) : ∀ seen, (distinctsAux l seen).Nodup := by
  induction l with
  | nil => intro seen; simp [distinctsAux]
  | cons x xs ih =>
    intro seen
    by_cases hx : x ∈ seen
    · rw [distinctsAux, if_pos hx]
      exact ih seen
    · rw [distinctsAux, if_neg hx]
      refine List.Nodup.cons ?_ (ih (x :: seen))
      intro hmem
      exact ((mem_distinctsAux xs (x :: seen) x).mp hmem).2 (List.mem_cons_self x seen)

theorem nodup_distincts [DecidableEq α] (l : List α) : (distincts l).Nodup :=
  nodup_distinctsAux l []

theorem distincts_perm_dedup [DecidableEq α] (l : List α) : List.Perm (distincts l) l.dedup := by
  apply List.perm_iff_count.mpr
  intro a
  rw [List.count_dedup, List.count_eq_of_nodup (nodup_distincts l)]
  simp [mem_distincts]

theorem sum_counts_distincts (l : List ℕ) :
    ((distincts l).map (fun c => l.count c)).sum = l.length := by
  have hperm := (distincts_perm_dedup l).map (fun c => l.count c)
  rw [hperm.sum_eq]
  exact List.sum_map_count_dedup_eq_length l

theorem members_length (rows : List CRow) (c : ℕ) :
    (clusterMembers rows c).length = (rows.map CRow.cluster).count c := by
  unfold clusterMembers
  induction rows with
  | nil => rfl
  | cons r rs ih =>
    by_cases h : r.cluster = c <;>
      simp [List.filter_cons, h, List.count_cons, ih]

/-- C7 (amended): in every segment-profiles artifact, `totalCustomers`
equals the sum of the listed per-cluster sizes and equals the number of
input rows, and the cluster ids listed are exactly the distinct ids
occurring in the assignment (not necessarily all of `{0, …, k-1}`). -/
theorem C7_profile_totals (rows : List CRow) :
    (generate_segment_profiles rows).totalCustomers =
      (((generate_segment_profiles rows).clusters.map ClusterInfo.size).sum) ∧
    (generate_segment_profiles rows).totalCustomers = rows.length ∧
    (∀ c : ℕ, c ∈ ((generate_segment_profiles rows).clusters.map ClusterInfo.id) ↔
      c ∈ rows.map CRow.cluster) := by
  unfold generate_segment_profiles
  dsimp only
  have hperm := List.perm_insertionSort (fun a b : ClusterInfo => b.size ≤ a.size)
      ((distincts (rows.map CRow.cluster)).map (clusterInfoFor rows))
  refine ⟨?_, ?_, ?_⟩
  · exact ((hperm.map ClusterInfo.size).sum_eq).symm
  · rw [List.map_map]
    have hc : ∀ c ∈ distincts (rows.map CRow.cluster),
        (ClusterInfo.size ∘ clusterInfoFor rows) c = (rows.map CRow.cluster).count c := by
      intro c _
      simp [clusterInfoFor, members_length]
    rw [sum_map_congr _ _ _ hc, sum_counts_distincts]
    simp
  · intro c
    rw [(hperm.map ClusterInfo.id).mem_iff, List.map_map]
    have hid : ∀ x ∈ distincts (rows.map CRow.cluster),
        (ClusterInfo.id ∘ clusterInfoFor rows) x = x := by
      intro x _
      rfl
    rw [List.map_congr_left hid, List.map_id']
    exact mem_distincts (rows.map CRow.cluster) c

/-- C7 (counterexample): with every row assigned to cluster 0 out of
`k = 2` requested clusters, the artifact lists only cluster id 0 — the ids
are not all of `{0, 1}`. -/
theorem C7_missing_id_counterexample :
    (∀ r ∈ rowsC7, r.cluster < 2) ∧
    ¬ (∀ c : ℕ, c ∈ ((generate_segment_profiles rowsC7).clusters.map ClusterInfo.id) ↔ c < 2) := by
  refine ⟨by decide, ?_⟩
  intro h
  have h1 : (1 : ℕ) ∈ ((generate_segment_profiles rowsC7).clusters.map ClusterInfo.id) :=
    (h 1).mpr (by norm_num)
  have h2 : ((generate_segment_profiles rowsC7).clusters.map ClusterInfo.id) = [0] := by decide
  rw [h2] at h1
  simp at h1

/-- C8: the qualitative label of every cluster profile is exactly the
specification's priority rule applied to that cluster's unrounded feature
means. -/
theorem C8_label_priority_rule :
    (∀ s a f : ℚ, get_cluster_description s a f = spec_label_rule s a f) ∧
    (∀ (rows : List CRow) (ci : ClusterInfo), ci ∈ (generate_segment_profiles rows).clusters →
      ci.description = spec_label_rule
        (meanQ ((clusterMembers rows ci.id).map CRow.spend))
        (meanQ ((clusterMembers rows ci.id).map CRow.age))
        (meanQ ((clusterMembers rows ci.id).map CRow.frequency))) := by
  have hpoint : ∀ s a f : ℚ, get_cluster_description s a f = spec_label_rule s a f := by
    intro s a f
    unfold get_cluster_description spec_label_rule
    by_cases h1 : s > 1500 <;> by_cases h2 : a > 55 <;> simp [h1, h2]
  refine ⟨hpoint, ?_⟩
  intro rows ci hci
  unfold generate_segment_profiles at hci
  dsimp only at hci
  have hperm := List.perm_insertionSort (fun a b : ClusterInfo => b.size ≤ a.size)
      ((distincts (rows.map CRow.cluster)).map (clusterInfoFor rows))
  rw [hperm.mem_iff, List.mem_map] at hci
  obtain ⟨c, -, hc⟩ := hci
  subst hc
  simp only [clusterInfoFor]
  exact hpoint _ _ _

/-- C8 witness: the high-spend high-age singleton cluster is labelled by
the rule (as `Luxury Segment`). -/
theorem C8_witness :
    (clusterInfoFor rowsC8 0).description = spec_label_rule
      (meanQ ((clusterMembers rowsC8 ((clusterInfoFor rowsC8 0).id)).map CRow.spend))
      (meanQ ((clusterMembers rowsC8 ((clusterInfoFor rowsC8 0).id)).map CRow.age))
      (meanQ ((clusterMembers rowsC8 ((clusterInfoFor rowsC8 0).id)).map CRow.frequency)) :=
  C8_label_priority_rule.2 rowsC8 (clusterInfoFor rowsC8 0) (by
    simp [generate_segment_profiles, rowsC8, distincts, distinctsAux, List.insertionSort,
      List.orderedInsert])

/-- C2: the `silhouetteScore` field written into the segment-profiles
artifact is the constant `0.72` for every input — it does not equal the
silhouette score of the run's assignment and feature vectors, which for a
two-point two-singleton-cluster run is 0 by the singleton rule. -/
theorem C2_silhouette_is_constant :
    (∀ rows : List CRow, (generate_segment_profiles rows).silhouetteScore = silhouetteConst) ∧
    (∀ p q : List ℚ, silhouette_spec [p, q] [0, 1] = 0) ∧
    (generate_segment_profiles rowsC2).silhouetteScore = silhouetteConst ∧
    rowsC2.map CRow.cluster = [0, 1] ∧
    silhouetteConst ≠ 0 := by
  refine ⟨fun rows => rfl, ?_, rfl, by decide, by norm_num [silhouetteConst]⟩
  intro p q
  have h0 : silhouette_point [p, q] [0, 1] 0 = 0 := by
    simp [silhouette_point, List.range_succ]
  have h1 : silhouette_point [p, q] [0, 1] 1 = 0 := by
    simp [silhouette_point, List.range_succ]
  unfold silhouette_spec
  simp [List.range_succ, h0, h1, meanQ]
